import Mathlib

/-!
Verification of the overseer/subsystem message-passing protocol of the
`polkadot-node-messages` crate (`src/node/messages/src/lib.rs`).

The crate defines only types: per-subsystem message enums, the top-level
dispatch union `AllMessages`, the lifecycle signal enum `OverseerSignal`,
and the generic envelope `FromOverseer<M>`.  We embed the type definitions
in two complementary ways:

* a deep embedding: each Rust enum is transcribed as a list of variants,
  each variant a constructor name together with the list of its field
  types, drawn from a small grammar `RustTy` of the Rust types that occur
  in the crate.  Claims about the *shape* of the taxonomy (which variants
  exist, which reply channels they carry) are decided over this data.

* a shallow embedding of `OverseerSignal` and `FromOverseer<M>` as Lean
  inductives, used for the envelope-exhaustiveness and lifecycle-ordering
  properties.
-/

/-- Grammar of the Rust types that occur as fields of the message enums in
`src/node/messages/src/lib.rs`.  Leaf constructors stand for the imported
primitive types (`Hash`, `PeerId`, `PoVBlock`, ...); `oneshotSender t`
stands for `futures::channel::oneshot::Sender<t>` (the single-use reply
channel), `mpscSender t` for `futures::channel::mpsc::Sender<t>` (the
multi-producer update stream), and `boxedFn a b` for `Box<dyn Fn(a) -> b>`. -/
inductive RustTy where
  | hash
  | blockNumber
  | signature
  | peerId
  | observedRole
  | view
  | abridgedCandidateReceipt
  | povBlock
  | erasureChunk
  | backedCandidate
  | paraId
  | signedAvailabilityBitfield
  | signingContext
  | validatorId
  | validationCode
  | validatorIndex
  | misbehaviorReport
  | protocolId
  | signedFullStatement
  | bytes
  | u32
  | i32
  | unit
  | validationFailed
  | newBackedCandidate
  | networkBridgeEvent
  | provisionableData
  | runtimeApiRequest
  | allMessages
  | overseerSignal
  | candidateValidationMessage
  | candidateBackingMessage
  | paramM
  | option (t : RustTy)
  | vec (t : RustTy)
  | result (ok err : RustTy)
  | oneshotSender (t : RustTy)
  | mpscSender (t : RustTy)
  | boxedFn (dom cod : RustTy)
  deriving DecidableEq, Repr

/-- One variant of a Rust enum: its constructor name and its field types,
in declaration order. -/
structure Variant where
  name : String
  fields : List RustTy
  deriving DecidableEq, Repr

/-- A Rust enum definition from the crate: its name, whether the source
carries a `#[derive(Debug)]` attribute on it, and its variants in
declaration order. -/
structure MessageTypeDef where
  name : String
  derivesDebug : Bool
  variants : List Variant
  deriving DecidableEq, Repr

/-- Look up a variant of an enum definition by constructor name. -/
def findVariant (d : MessageTypeDef) (n : String) : Option Variant :=
  d.variants.find? (fun v => v.name == n)

/-- Is this field type a single-use reply channel (`oneshot::Sender<_>`)? -/
def isOneshotSender : RustTy → Bool
  | .oneshotSender _ => true
  | _ => false

/-- Is this field type a reply primitive of either kind
(`oneshot::Sender<_>` or `mpsc::Sender<_>`)? -/
def isReplyPrimitive : RustTy → Bool
  | .oneshotSender _ => true
  | .mpscSender _ => true
  | _ => false

/-- Is this field type an opaque boxed callback (`Box<dyn Fn(_) -> _>`)? -/
def isBoxedFn : RustTy → Bool
  | .boxedFn _ _ => true
  | _ => false

/-- Is this type an `Option<_>`, i.e. can a value of it express absence? -/
def canExpressAbsence : RustTy → Bool
  | .option _ => true
  | _ => false

/-- The value types carried by the single-use reply channels among a list
of fields, in field order. -/
def senderValueTypes (fields : List RustTy) : List RustTy :=
  fields.filterMap fun t =>
    match t with
    | .oneshotSender v => some v
    | _ => none

/-- `OverseerSignal` (src/node/messages/src/lib.rs lines 39-48):
`StartWork(Hash)`, `StopWork(Hash)`, `Conclude`. -/
def OverseerSignalDef : MessageTypeDef :=
  ⟨"OverseerSignal", true,
    [⟨"StartWork", [.hash]⟩,
     ⟨"StopWork", [.hash]⟩,
     ⟨"Conclude", []⟩]⟩

/-- `CandidateSelectionMessage` (lines 54-60): a single fire-and-forget
operation `Invalid(Hash, AbridgedCandidateReceipt)`. -/
def CandidateSelectionMessageDef : MessageTypeDef :=
  ⟨"CandidateSelectionMessage", true,
    [⟨"Invalid", [.hash, .abridgedCandidateReceipt]⟩]⟩

/-- `CandidateBackingMessage` (lines 62-74). -/
def CandidateBackingMessageDef : MessageTypeDef :=
  ⟨"CandidateBackingMessage", true,
    [⟨"RegisterBackingWatcher", [.hash, .mpscSender .newBackedCandidate]⟩,
     ⟨"Second", [.hash, .abridgedCandidateReceipt]⟩,
     ⟨"Statement", [.hash, .signedFullStatement]⟩]⟩

/-- `CandidateValidationMessage` (lines 80-93): the single operation
`Validate(Hash, AbridgedCandidateReceipt, PoVBlock,
oneshot::Sender<Result<(), ValidationFailed>>)`. -/
def CandidateValidationMessageDef : MessageTypeDef :=
  ⟨"CandidateValidationMessage", true,
    [⟨"Validate",
      [.hash, .abridgedCandidateReceipt, .povBlock,
       .oneshotSender (.result .unit .validationFailed)]⟩]⟩

/-- `NetworkBridgeEvent` (lines 95-114): the peer-event enum. -/
def NetworkBridgeEventDef : MessageTypeDef :=
  ⟨"NetworkBridgeEvent", true,
    [⟨"PeerConnected", [.peerId, .observedRole]⟩,
     ⟨"PeerDisconnected", [.peerId]⟩,
     ⟨"PeerMessage", [.peerId, .bytes]⟩,
     ⟨"PeerViewChange", [.peerId, .view]⟩,
     ⟨"OurViewChange", [.view]⟩]⟩

/-- `NetworkBridgeMessage` (lines 116-127).  Note: the source carries no
`#[derive(Debug)]` on this enum — `RegisterEventProducer` holds a
`Box<dyn Fn(NetworkBridgeEvent) -> AllMessages>`, which is not
debug-printable. -/
def NetworkBridgeMessageDef : MessageTypeDef :=
  ⟨"NetworkBridgeMessage", false,
    [⟨"RegisterEventProducer",
      [.protocolId, .boxedFn .networkBridgeEvent .allMessages]⟩,
     ⟨"ReportPeer", [.peerId, .i32]⟩,
     ⟨"SendMessage", [.vec .peerId, .protocolId, .bytes]⟩]⟩

/-- `AvailabilityDistributionMessage` (lines 129-140). -/
def AvailabilityDistributionMessageDef : MessageTypeDef :=
  ⟨"AvailabilityDistributionMessage", true,
    [⟨"DistributeChunk", [.hash, .erasureChunk]⟩,
     ⟨"FetchChunk", [.hash, .u32]⟩,
     ⟨"NetworkBridgeUpdate", [.networkBridgeEvent]⟩]⟩

/-- `BitfieldDistributionMessage` (lines 142-150). -/
def BitfieldDistributionMessageDef : MessageTypeDef :=
  ⟨"BitfieldDistributionMessage", true,
    [⟨"DistributeBitfield", [.hash, .signedAvailabilityBitfield]⟩,
     ⟨"NetworkBridgeUpdate", [.networkBridgeEvent]⟩]⟩

/-- `AvailabilityStoreMessage` (lines 152-163): `QueryPoV` replies with
`Option<PoVBlock>`, `QueryChunk` replies with `ErasureChunk` (not an
`Option`), `StoreChunk` has no reply channel. -/
def AvailabilityStoreMessageDef : MessageTypeDef :=
  ⟨"AvailabilityStoreMessage", true,
    [⟨"QueryPoV", [.hash, .oneshotSender (.option .povBlock)]⟩,
     ⟨"QueryChunk", [.hash, .validatorIndex, .oneshotSender .erasureChunk]⟩,
     ⟨"StoreChunk", [.hash, .validatorIndex, .erasureChunk]⟩]⟩

/-- `RuntimeApiRequest` (lines 165-176). -/
def RuntimeApiRequestDef : MessageTypeDef :=
  ⟨"RuntimeApiRequest", true,
    [⟨"Validators", [.oneshotSender (.vec .validatorId)]⟩,
     ⟨"SigningContext", [.oneshotSender .signingContext]⟩,
     ⟨"ValidationCode",
      [.paraId, .blockNumber, .option .blockNumber,
       .oneshotSender .validationCode]⟩]⟩

/-- `RuntimeApiMessage` (lines 178-183): the single operation
`Request(Hash, RuntimeApiRequest)`. -/
def RuntimeApiMessageDef : MessageTypeDef :=
  ⟨"RuntimeApiMessage", true,
    [⟨"Request", [.hash, .runtimeApiRequest]⟩]⟩

/-- `StatementDistributionMessage` (lines 185-191). -/
def StatementDistributionMessageDef : MessageTypeDef :=
  ⟨"StatementDistributionMessage", true,
    [⟨"Share", [.hash, .signedFullStatement]⟩]⟩

/-- `ProvisionableData` (lines 193-204). -/
def ProvisionableDataDef : MessageTypeDef :=
  ⟨"ProvisionableData", true,
    [⟨"Bitfield", [.hash, .signedAvailabilityBitfield]⟩,
     ⟨"BackedCandidate", [.backedCandidate]⟩,
     ⟨"MisbehaviorReport", [.hash, .misbehaviorReport]⟩,
     ⟨"Dispute", [.hash, .signature]⟩]⟩

/-- `ProvisionerMessage` (lines 206-216). -/
def ProvisionerMessageDef : MessageTypeDef :=
  ⟨"ProvisionerMessage", true,
    [⟨"RequestBlockAuthorshipData", [.hash, .mpscSender .provisionableData]⟩,
     ⟨"ProvisionableData", [.provisionableData]⟩]⟩

/-- `AllMessages` (lines 218-225): the top-level dispatch union.  The
source enumerates exactly two variants. -/
def AllMessagesDef : MessageTypeDef :=
  ⟨"AllMessages", true,
    [⟨"CandidateValidation", [.candidateValidationMessage]⟩,
     ⟨"CandidateBacking", [.candidateBackingMessage]⟩]⟩

/-- `FromOverseer<M>` (lines 227-241): `Signal(OverseerSignal)` and
`Communication { msg: M }`.  `paramM` stands for the generic parameter. -/
def FromOverseerDef : MessageTypeDef :=
  ⟨"FromOverseer", true,
    [⟨"Signal", [.overseerSignal]⟩,
     ⟨"Communication", [.paramM]⟩]⟩

/-- The generic parameter `M` of `FromOverseer` carries the trait bound
`M: std::fmt::Debug` (line 233), so only debug-printable message types can
instantiate the envelope. -/
def fromOverseerDebugBound : Bool := true

/-- Whether a message type can instantiate the envelope `FromOverseer<M>`:
it must satisfy the `Debug` bound, i.e. derive `Debug`. -/
def canWrapInFromOverseer (d : MessageTypeDef) : Bool :=
  !fromOverseerDebugBound || d.derivesDebug

/-- The per-subsystem message types of the taxonomy, in source order: the
enums a subsystem consumes as its inbound communication type. -/
def subsystemMessageTypes : List MessageTypeDef :=
  [CandidateSelectionMessageDef,
   CandidateBackingMessageDef,
   CandidateValidationMessageDef,
   NetworkBridgeMessageDef,
   AvailabilityDistributionMessageDef,
   BitfieldDistributionMessageDef,
   AvailabilityStoreMessageDef,
   RuntimeApiMessageDef,
   StatementDistributionMessageDef,
   ProvisionerMessageDef]

/-- Modelled from the spec: the destination subsystems named in the data
model's description of the dispatch union (spec section 3, "Message": "a
tagged union whose variant identifies the destination subsystem (e.g.
CandidateValidation, CandidateBacking, NetworkBridge,
AvailabilityDistribution, BitfieldDistribution, AvailabilityStore,
RuntimeApi, StatementDistribution, Provisioner)"). -/
def specDestinations : List String :=
  ["CandidateValidation", "CandidateBacking", "NetworkBridge",
   "AvailabilityDistribution", "BitfieldDistribution", "AvailabilityStore",
   "RuntimeApi", "StatementDistribution", "Provisioner"]

/-- A relay-chain block hash (`polkadot_primitives::Hash`), an opaque
fixed-size identifier compared by its raw value; modelled as `Nat`. -/
abbrev Hash := Nat

/-- Shallow embedding of `OverseerSignal` (lines 39-48). -/
inductive OverseerSignal where
  | StartWork (h : Hash)
  | StopWork (h : Hash)
  | Conclude
  deriving DecidableEq, Repr

/-- Shallow embedding of the envelope `FromOverseer<M>` (lines 227-241):
a subsystem's single inbound item type, either a lifecycle signal from the
overseer or a communication payload of the subsystem's message type `M`. -/
inductive FromOverseer (M : Type) where
  | Signal (signal : OverseerSignal)
  | Communication (msg : M)

/-- Modelled from the spec: the chain-head notifications the Overseer
reacts to.  The overseer crate itself is not under `src/`; the spec says
"Overseer observes new chain heads → emits StartWork(hash) ... → Overseer
emits StopWork(hash) when a head is no longer relevant → eventually
Conclude tears everything down". -/
inductive ChainEvent where
  | newHead (h : Hash)
  | headIrrelevant (h : Hash)
  | concludeEvent
  deriving DecidableEq, Repr

/-- Modelled from the spec: the sequence of signals the Overseer
broadcasts while processing chain events, given the set of currently
active heads.  A new head is recorded active and `StartWork` is emitted;
`StopWork(h)` is emitted only when a head `h` that is currently active
becomes irrelevant (stopping work that was never started is not emitted);
a conclude notification emits `Conclude`. -/
def overseerRun : List Hash → List ChainEvent → List OverseerSignal
  | _, [] => []
  | active, .newHead h :: es =>
      .StartWork h :: overseerRun (h :: active) es
  | active, .headIrrelevant h :: es =>
      if h ∈ active then
        .StopWork h :: overseerRun (active.erase h) es
      else
        overseerRun active es
  | active, .concludeEvent :: es =>
      .Conclude :: overseerRun active es

/-- Modelled from the spec: what a subsystem observes.  Broadcast delivers
signals to every subsystem in send order (spec section 3, "Signal":
delivery order = send order), and delivery to a subsystem ceases only if
its inbound channel closes (spec section 4.1), so the signal sequence any
one subsystem observes is an initial segment of the broadcast sequence. -/
def observes (obs : List OverseerSignal) (events : List ChainEvent) : Prop :=
  ∃ rest, obs ++ rest = overseerRun [] events

/-- Does the message type contain a `NetworkBridgeUpdate` variant whose
sole field is a `NetworkBridgeEvent`? -/
def hasNetworkBridgeUpdateVariant (d : MessageTypeDef) : Bool :=
  d.variants.any fun v =>
    v.name == "NetworkBridgeUpdate" &&
      decide (v.fields = [RustTy.networkBridgeEvent])

/-- Does any variant of the message type carry a `NetworkBridgeEvent` as
a direct field? -/
def hasDirectNetworkEventField (d : MessageTypeDef) : Bool :=
  d.variants.any fun v =>
    v.fields.any fun t => decide (t = RustTy.networkBridgeEvent)

/-- Claim C1 fails on the code: the spec's data model names nine
destination subsystems, but the dispatch union `AllMessages` has no
variant for `NetworkBridge` (nor for six of the other listed subsystems):
it enumerates only `CandidateValidation` and `CandidateBacking`. -/
theorem allMessages_missing_spec_destination :
    "NetworkBridge" ∈ specDestinations ∧
    "NetworkBridge" ∉ AllMessagesDef.variants.map Variant.name ∧
    ¬ (∀ d ∈ specDestinations, d ∈ AllMessagesDef.variants.map Variant.name) := by
  decide

/-- Claim C1 (amended): the dispatch union `AllMessages` has exactly the
two variants `CandidateValidation` and `CandidateBacking`, each carrying
the corresponding subsystem's message type; only those two of the spec's
nine named destinations can be tagged in the dispatch union. -/
theorem allMessages_exactly_two_destinations :
    AllMessagesDef.variants.map Variant.name =
      ["CandidateValidation", "CandidateBacking"] ∧
    AllMessagesDef.variants.map Variant.fields =
      [[RustTy.candidateValidationMessage], [RustTy.candidateBackingMessage]] ∧
    ∀ d ∈ AllMessagesDef.variants.map Variant.name, d ∈ specDestinations := by
  decide

/-- Claim C2 fails on the code: `QueryChunk`'s reply channel has value
type `ErasureChunk`, not an `Option`, so its value type cannot express
the absence of the chunk. -/
theorem queryChunk_reply_cannot_express_absence :
    (findVariant AvailabilityStoreMessageDef "QueryChunk").map
        (fun v => senderValueTypes v.fields) = some [RustTy.erasureChunk] ∧
    canExpressAbsence RustTy.erasureChunk = false := by
  decide

/-- Claim C2 (amended): in `AvailabilityStoreMessage`, `QueryPoV` carries
a single reply channel whose value type `Option<PoVBlock>` expresses the
stored value or its absence; `QueryChunk` carries a single reply channel
whose value type is the bare `ErasureChunk` (absence is expressible only
by dropping the sender, not as a value); and `StoreChunk` carries no
reply primitive at all (fire-and-forget). -/
theorem availabilityStore_reply_channels :
    (findVariant AvailabilityStoreMessageDef "QueryPoV").map
        (fun v => senderValueTypes v.fields) =
      some [RustTy.option RustTy.povBlock] ∧
    canExpressAbsence (RustTy.option RustTy.povBlock) = true ∧
    (findVariant AvailabilityStoreMessageDef "QueryChunk").map
        (fun v => senderValueTypes v.fields) = some [RustTy.erasureChunk] ∧
    (findVariant AvailabilityStoreMessageDef "StoreChunk").map
        (fun v => v.fields.countP isReplyPrimitive) = some 0 ∧
    AvailabilityStoreMessageDef.variants.map Variant.name =
      ["QueryPoV", "QueryChunk", "StoreChunk"] := by
  decide

/-- Claim C3: `CandidateValidationMessage` has the single operation
`Validate`, carrying exactly a relay-parent hash, a candidate receipt, a
proof-of-validity block, and one single-use reply sender whose value type
is `Result<(), ValidationFailed>` — validation failure flows back only as
a value through that reply channel. -/
theorem candidateValidation_validate_shape :
    CandidateValidationMessageDef.variants =
      [⟨"Validate",
        [RustTy.hash, RustTy.abridgedCandidateReceipt, RustTy.povBlock,
         RustTy.oneshotSender (RustTy.result RustTy.unit RustTy.validationFailed)]⟩] ∧
    (findVariant CandidateValidationMessageDef "Validate").map
        (fun v => senderValueTypes v.fields) =
      some [RustTy.result RustTy.unit RustTy.validationFailed] ∧
    (findVariant CandidateValidationMessageDef "Validate").map
        (fun v => v.fields.countP isReplyPrimitive) = some 1 := by
  decide

/-- Claim C4: `RuntimeApiMessage` has exactly one operation
`Request(Hash, RuntimeApiRequest)`; `RuntimeApiRequest` has exactly the
three variants `Validators`, `SigningContext` and
`ValidationCode(para, block_number, maybe_intermediate_block_number)`;
and each of the three carries exactly one single-use reply sender. -/
theorem runtimeApi_request_shape :
    RuntimeApiMessageDef.variants.map Variant.name = ["Request"] ∧
    (findVariant RuntimeApiMessageDef "Request").map Variant.fields =
      some [RustTy.hash, RustTy.runtimeApiRequest] ∧
    RuntimeApiRequestDef.variants.map Variant.name =
      ["Validators", "SigningContext", "ValidationCode"] ∧
    (findVariant RuntimeApiRequestDef "ValidationCode").map Variant.fields =
      some [RustTy.paraId, RustTy.blockNumber,
            RustTy.option RustTy.blockNumber,
            RustTy.oneshotSender RustTy.validationCode] ∧
    ∀ v ∈ RuntimeApiRequestDef.variants,
      v.fields.countP isOneshotSender = 1 :=
  ⟨by decide, by decide, by decide, by decide, by decide⟩

/-- Claim C5: the envelope `FromOverseer<M>` is generic over the message
type `M` and has exactly the two variants `Signal` (carrying an
`OverseerSignal`) and `Communication` (carrying an `M`): every inbound
item is a signal or a communication, never both, never anything else. -/
theorem fromOverseer_signal_or_communication (M : Type) (x : FromOverseer M) :
    ((∃ s, x = FromOverseer.Signal s) ∨ (∃ m, x = FromOverseer.Communication m)) ∧
    ¬ ((∃ s, x = FromOverseer.Signal s) ∧ (∃ m, x = FromOverseer.Communication m)) := by
  constructor
  · cases x with
    | Signal s => exact Or.inl ⟨s, rfl⟩
    | Communication m => exact Or.inr ⟨m, rfl⟩
  · rintro ⟨⟨s, hs⟩, ⟨m, hm⟩⟩
    subst hs
    exact FromOverseer.noConfusion hm

/-- Claim C6: the peer-event enum `NetworkBridgeEvent` has exactly the
five variants `PeerConnected(peer, role)`, `PeerDisconnected(peer)`,
`PeerMessage(peer, bytes)`, `PeerViewChange(peer, view)` and
`OurViewChange(view)`, with exactly those payloads. -/
theorem networkBridgeEvent_five_variants :
    NetworkBridgeEventDef.variants =
      [⟨"PeerConnected", [RustTy.peerId, RustTy.observedRole]⟩,
       ⟨"PeerDisconnected", [RustTy.peerId]⟩,
       ⟨"PeerMessage", [RustTy.peerId, RustTy.bytes]⟩,
       ⟨"PeerViewChange", [RustTy.peerId, RustTy.view]⟩,
       ⟨"OurViewChange", [RustTy.view]⟩] ∧
    NetworkBridgeEventDef.variants.length = 5 := by
  decide

/-- Helper for the lifecycle-ordering claim: any `StopWork h` in the
signal stream the overseer emits starting from active-head set `active`
is either explained by `h` having been active from the start, or preceded
by a `StartWork h` earlier in the stream. -/
theorem overseerRun_stop_mem (es : List ChainEvent) :
    ∀ (active : List Hash) (h : Hash) (p q : List OverseerSignal),
      overseerRun active es = p ++ OverseerSignal.StopWork h :: q →
      h ∈ active ∨ OverseerSignal.StartWork h ∈ p := by
  induction es with
  | nil =>
      intro active h p q heq
      simp [overseerRun] at heq
  | cons e es ih =>
      intro active h p q heq
      cases e with
      | newHead h2 =>
          simp only [overseerRun] at heq
          cases p with
          | nil =>
              simp only [List.nil_append] at heq
              injection heq with hx htail
              exact OverseerSignal.noConfusion hx
          | cons x p2 =>
              simp only [List.cons_append] at heq
              injection heq with hx htail
              rcases ih (h2 :: active) h p2 q htail with hmem | hst
              · rcases List.mem_cons.mp hmem with heq2 | hmem2
                · right
                  rw [heq2, ← hx]
                  exact List.mem_cons_self _ _
                · exact Or.inl hmem2
              · exact Or.inr (List.mem_cons_of_mem _ hst)
      | headIrrelevant h2 =>
          simp only [overseerRun] at heq
          by_cases hact : h2 ∈ active
          · rw [if_pos hact] at heq
            cases p with
            | nil =>
                simp only [List.nil_append] at heq
                injection heq with hx htail
                injection hx with hx2
                exact Or.inl (hx2 ▸ hact)
            | cons x p2 =>
                simp only [List.cons_append] at heq
                injection heq with hx htail
                rcases ih (active.erase h2) h p2 q htail with hmem | hst
                · exact Or.inl (List.mem_of_mem_erase hmem)
                · exact Or.inr (List.mem_cons_of_mem _ hst)
          · rw [if_neg hact] at heq
            exact ih active h p q heq
      | concludeEvent =>
          simp only [overseerRun] at heq
          cases p with
          | nil =>
              simp only [List.nil_append] at heq
              injection heq with hx htail
              exact OverseerSignal.noConfusion hx
          | cons x p2 =>
              simp only [List.cons_append] at heq
              injection heq with hx htail
              rcases ih active h p2 q htail with hmem | hst
              · exact Or.inl hmem
              · exact Or.inr (List.mem_cons_of_mem _ hst)

/-- Claim C7: for every block handle `h` and every subsystem, in the
signal sequence the subsystem observes (an initial segment of the
overseer's broadcast), a `StopWork h` is never observed before a
`StartWork h` was observed: every decomposition of the observed sequence
around a `StopWork h` has a `StartWork h` strictly earlier. -/
theorem stopWork_preceded_by_startWork
    (events : List ChainEvent) (obs p q : List OverseerSignal) (h : Hash)
    (hobs : observes obs events)
    (hsplit : obs = p ++ OverseerSignal.StopWork h :: q) :
    OverseerSignal.StartWork h ∈ p := by
  obtain ⟨rest, hrest⟩ := hobs
  rw [hsplit, List.append_assoc, List.cons_append] at hrest
  rcases overseerRun_stop_mem events [] h p (q ++ rest) hrest.symm with hmem | hst
  · exact absurd hmem (List.not_mem_nil _)
  · exact hst

/-- On the concrete event list [newHead 5, headIrrelevant 5] the overseer
broadcasts [StartWork 5, StopWork 5]; decomposing the fully observed
sequence around its StopWork 5 finds StartWork 5 in the segment before it. -/
theorem stopWork_preceded_by_startWork_witness :
    OverseerSignal.StartWork 5 ∈ [OverseerSignal.StartWork 5] :=
  stopWork_preceded_by_startWork
    [ChainEvent.newHead 5, ChainEvent.headIrrelevant 5]
    [OverseerSignal.StartWork 5, OverseerSignal.StopWork 5]
    [OverseerSignal.StartWork 5] [] 5
    ⟨[], by decide⟩ rfl

/-- Claim C8: `NetworkBridgeMessage` is the only per-subsystem message
type without `#[derive(Debug)]` — it is also the only one holding an
opaque boxed callback — while the envelope `FromOverseer<M>` requires
`M: Debug`; hence the network-bridge message type is the one message type
that cannot instantiate the envelope, and the network bridge cannot
receive lifecycle signals through it. -/
theorem networkBridge_not_wrappable_in_envelope :
    (subsystemMessageTypes.filter fun d => !d.derivesDebug).map
        MessageTypeDef.name = ["NetworkBridgeMessage"] ∧
    (subsystemMessageTypes.filter fun d =>
        d.variants.any fun v => v.fields.any isBoxedFn).map
        MessageTypeDef.name = ["NetworkBridgeMessage"] ∧
    fromOverseerDebugBound = true ∧
    canWrapInFromOverseer NetworkBridgeMessageDef = false ∧
    (subsystemMessageTypes.filter fun d =>
        !(d.name == "NetworkBridgeMessage")).all canWrapInFromOverseer = true := by
  decide

/-- Claim C9: the taxonomy defines `CandidateSelectionMessage` — for the
Candidate Selection subsystem, which is absent from the spec's list of
dispatch destinations — with exactly one operation
`Invalid(relay_parent, candidate_receipt)`, carrying no reply primitive
(a fire-and-forget penalization notice). -/
theorem candidateSelection_fire_and_forget :
    CandidateSelectionMessageDef.variants =
      [⟨"Invalid", [RustTy.hash, RustTy.abridgedCandidateReceipt]⟩] ∧
    (CandidateSelectionMessageDef.variants.map
        fun v => v.fields.countP isReplyPrimitive) = [0] ∧
    "CandidateSelection" ∉ specDestinations := by
  decide

/-- Claim C10: among the per-subsystem message types, exactly two — the
availability-distribution and bitfield-distribution message types —
contain a `NetworkBridgeUpdate` variant carrying a network peer event;
they are also the only two whose variants carry a `NetworkBridgeEvent`
as a direct field at all. -/
theorem networkBridgeUpdate_exactly_two :
    (subsystemMessageTypes.filter hasNetworkBridgeUpdateVariant).map
        MessageTypeDef.name =
      ["AvailabilityDistributionMessage", "BitfieldDistributionMessage"] ∧
    (subsystemMessageTypes.filter hasDirectNetworkEventField).map
        MessageTypeDef.name =
      ["AvailabilityDistributionMessage", "BitfieldDistributionMessage"] := by
  decide
